import Mathlib

/-!
Verification development for the Real-Time-AI-Interview-Assistant repository.

Each Python module relevant to the specification is shallowly embedded as
executable Lean definitions: pure functions become Lean functions, machine
floats become exact rationals, network and engine effects become explicit
oracle parameters, and generator loops become list-producing recursions.
Theorems at the end of the file settle the specification claims against
these embeddings.

String primitives used by the Python code (`str.strip`, `str.lower`,
`str.split`, `in`, `endswith`) are re-implemented over `List Char`, and
rational arithmetic is expressed through `Rat.divInt` on numerators and
denominators, so that every definition evaluates by kernel reduction;
bridge lemmas identify these operations with the standard Mathlib
operations used in the claim statements.
-/

namespace PyStr

/-- Python whitespace test for the ASCII texts the program handles. -/
def isSpace (c : Char) : Bool :=
  c == ' ' || c == '\t' || c == '\n' || c == '\r'

/-- Python `str.strip()` on a character list. -/
def strip (cs : List Char) : List Char :=
  ((cs.dropWhile isSpace).reverse.dropWhile isSpace).reverse

/-- Python `str.lower()` on a character list. -/
def lower (cs : List Char) : List Char :=
  cs.map Char.toLower

/-- Python `needle in hay` (substring containment). -/
def isSubstr (needle : List Char) : List Char → Bool
  | [] => needle.isEmpty
  | c :: cs => needle.isPrefixOf (c :: cs) || isSubstr needle cs

/-- Python `s.endswith(suffix)`. -/
def endsWith (cs suffix : List Char) : Bool :=
  suffix.isSuffixOf cs

/-- Python `str.split()` (split on whitespace runs, dropping empty pieces). -/
def splitWS (cs : List Char) : List (List Char) :=
  (cs.splitOnP isSpace).filter (fun w => !w.isEmpty)

/-- Python `min(a, b)` on exact numbers. -/
def pymin (a b : ℚ) : ℚ := if a ≤ b then a else b

/-- Python `max(a, b)` on exact numbers. -/
def pymax (a b : ℚ) : ℚ := if b ≤ a then a else b

end PyStr

namespace PyQ

def add (a b : ℚ) : ℚ := Rat.divInt (a.num * b.den + b.num * a.den) (a.den * b.den)

def sub (a b : ℚ) : ℚ := Rat.divInt (a.num * b.den - b.num * a.den) (a.den * b.den)

def mul (a b : ℚ) : ℚ := Rat.divInt (a.num * b.num) (a.den * b.den)

/-- Division of a rational by a natural number. -/
def divN (a : ℚ) (n : ℕ) : ℚ := Rat.divInt a.num (a.den * n)

/-- The rational `m / n` for naturals `m`, `n`. -/
def ratioN (m n : ℕ) : ℚ := Rat.divInt m n

def qsum (l : List ℚ) : ℚ := l.foldr add 0

end PyQ

namespace QuestionDetector
/-!
Embedding of `backend/question_detector.py` (`QuestionDetector.is_question`
and `QuestionDetector._determine_type`).

The five compiled regular-expression probes are represented as data.  The
first four patterns all have the shape `\b(alt1|alt2|...)\b` searched
case-insensitively anywhere in the text; the fifth is `\?$`.  The word
boundary `\b` separates a word character `[A-Za-z0-9_]` from a non-word
character or the string edge; every alternative in the source starts and
ends with a letter, so a match of `\b(alts)\b` at a position is exactly an
occurrence of one alternative whose preceding character (if any) and
following character (if any) are non-word characters.
-/

def isWordChar (c : Char) : Bool :=
  c.isAlpha || c.isDigit || c == '_'

/-- Case-insensitive match of `phrase` (given in lower case) as a prefix of
the second argument, requiring a word boundary just after the phrase. -/
def matchPhrase : List Char → List Char → Bool
  | [], [] => true
  | [], c :: _ => !(isWordChar c)
  | _ :: _, [] => false
  | p :: ps, c :: cs => (c.toLower == p) && matchPhrase ps cs

/-- Search for `phrase` with `\b` on both sides anywhere in the text;
`prev` says whether the character just before the remaining text is a word
character. -/
def searchFrom (phrase : List Char) : Bool → List Char → Bool
  | prev, [] => !prev && matchPhrase phrase []
  | prev, c :: cs =>
      (!prev && matchPhrase phrase (c :: cs)) || searchFrom phrase (isWordChar c) cs

/-- Result of `re.search(r"\b(alt1|alt2|...)\b", text, re.IGNORECASE)` as a Bool. -/
def searchWordAlts (alts : List String) (text : List Char) : Bool :=
  alts.any fun a => searchFrom a.data false text

/-- Result of `re.search(r"\?$", text)`: in Python `$` matches at the end of the
string or just before a terminating newline. -/
def searchQMDollar (text : List Char) : Bool :=
  PyStr.endsWith text ['?'] || PyStr.endsWith text ['?', '\n']

/-- One compiled pattern of `self.question_patterns`. -/
inductive QPattern
  | wordAlts (alts : List String)
  | endsQM
deriving DecidableEq

def patternSearch (text : List Char) : QPattern → Bool
  | .wordAlts alts => searchWordAlts alts text
  | .endsQM => searchQMDollar text

/-- The list `self.question_patterns` / `self.compiled_patterns`, in source order. -/
def compiled_patterns : List QPattern :=
  [ .wordAlts ["what", "when", "where", "who", "why", "how", "which"],
    .wordAlts ["tell me", "describe", "explain", "discuss", "talk about"],
    .wordAlts ["can you", "could you", "would you", "will you"],
    .wordAlts ["do you", "did you", "have you", "are you", "were you"],
    .endsQM ]

def behavioral_keywords : List String :=
  [ "tell me about a time", "describe a situation", "give me an example",
    "experience with", "challenge you faced", "conflict", "team", "leadership" ]

def technical_keywords : List String :=
  [ "how does", "explain", "implement", "algorithm", "system design",
    "architecture", "code", "database", "api", "performance" ]

/-- Embedding of `QuestionDetector._determine_type`: behavioral keywords are scanned
before technical ones; the first hit wins; default is `"general"`. -/
def determine_type (text : List Char) : String :=
  let tl := PyStr.lower text
  if behavioral_keywords.any (fun k => PyStr.isSubstr k.data tl) then "behavioral"
  else if technical_keywords.any (fun k => PyStr.isSubstr k.data tl) then "technical"
  else "general"

structure QuestionResult where
  is_question : Bool
  confidence : ℚ
  qtype : Option String
deriving DecidableEq

/-- The `matches` counter: number of compiled patterns that match `text`
(each pattern adds at most 1 however many times it occurs in the text). -/
def matchCount (text : List Char) : ℕ :=
  (compiled_patterns.filter (patternSearch text)).length

/-- Embedding of `QuestionDetector.is_question`. -/
def is_question (text : String) : QuestionResult :=
  if (PyStr.strip text.data).length < 5 then
    ⟨false, 0, none⟩
  else
    let t := PyStr.strip text.data
    let matchesN := matchCount t
    let confidence : ℚ := PyStr.pymin (PyQ.ratioN matchesN 2) 1
    let question_type := determine_type t
    let isq := decide (1 ≤ matchesN) || PyStr.endsWith t ['?']
    ⟨isq, if isq then confidence else 0, if isq then some question_type else none⟩

end QuestionDetector

namespace TranscriptionService
/-!
Embedding of `backend/transcription_service.py`
(`TranscriptionService._calculate_confidence`).

The argument mirrors the Whisper result dict: `none` when the dict has no
`"segments"` key, otherwise the list of segments, where a segment is
`some p` when it carries `"no_speech_prob" = p` and `none` when the key is
absent.
-/

/-- Embedding of `TranscriptionService._calculate_confidence`. -/
def calculate_confidence (segments : Option (List (Option ℚ))) : ℚ :=
  match segments with
  | none => 0
  | some [] => 0
  | some segs =>
      let confidences := (segs.filterMap id).map (fun p => PyQ.sub 1 p)
      if confidences.isEmpty then PyQ.ratioN 1 2
      else PyQ.divN (PyQ.qsum confidences) confidences.length

end TranscriptionService

namespace AnswerGenerator
/-!
Embedding of `backend/answer_generator.py`
(`AnswerGenerator._calculate_confidence`).

Python `round(x, 2)` rounds to two decimal places, ties to even; the values
here are exact rationals, so the tie rule is the half-even rule on
`x * 100`.
-/

/-- Round to the nearest integer, ties to the even integer. -/
def roundHalfEven (y : ℚ) : ℤ :=
  if PyQ.sub y (Rat.divInt (Rat.floor y) 1) < PyQ.ratioN 1 2 then Rat.floor y
  else if PyQ.ratioN 1 2 < PyQ.sub y (Rat.divInt (Rat.floor y) 1) then Rat.floor y + 1
  else if Rat.floor y % 2 = 0 then Rat.floor y else Rat.floor y + 1

/-- Python `round(x, 2)`. -/
def round2 (x : ℚ) : ℚ := Rat.divInt (roundHalfEven (PyQ.mul x 100)) 100

/-- Python `text.lower().split()` as a list of character-list words. -/
def pyWordsLower (cs : List Char) : List (List Char) :=
  PyStr.splitWS (PyStr.lower cs)

/-- Embedding of `AnswerGenerator._calculate_confidence`.  The source also builds
`question_words` from the question, but never uses it; only the overlap of
the word set of the answer with the word set of `resume_ctx + " " + jd_ctx`
enters the score. -/
def calculate_confidence (question answer resume_ctx jd_ctx : String) : ℚ :=
  let _question_words := (pyWordsLower question.data).dedup
  let answer_words := (pyWordsLower answer.data).dedup
  let context_words := (pyWordsLower (resume_ctx.data ++ (' ' :: jd_ctx.data))).dedup
  let overlap := (answer_words.filter (fun w => context_words.contains w)).length
  let total := answer_words.length
  if total = 0 then PyQ.ratioN 1 2
  else round2 (PyStr.pymin (PyQ.ratioN 19 20)
    (PyStr.pymax (PyQ.ratioN 1 2) (PyQ.ratioN overlap total)))

end AnswerGenerator

namespace AudioProcessor
/-!
Embedding of `backend/audio_processor.py` (`AudioProcessor.add_to_buffer`
and `AudioProcessor.get_buffer`).  The buffer state `self.audio_buffer` is
the list of chunks added so far; a chunk is a list of samples.
`get_buffer` returns the produced array together with the buffer state
after the call.
-/

def add_to_buffer (buf : List (List ℚ)) (audio_data : List ℚ) : List (List ℚ) :=
  buf ++ [audio_data]

def get_buffer (buf : List (List ℚ)) (clear : Bool) : List ℚ × List (List ℚ) :=
  if buf.isEmpty then ([], buf)
  else (buf.flatten, if clear then [] else buf)

end AudioProcessor

namespace EnhancedMain
/-!
Embedding of the token-consuming loop of
`main_enhanced.py::enhanced_print_wrapped_response` (lines 532-544):

    for token in response_gen:
        if stop_generation.is_set():
            break
        ...
        response_text += token

`tokens` is the full sequence the generator would produce.  The
cancellation flag `stop_generation` becomes (and stays) set once `k` tokens
have been emitted.  A Python `for` loop pulls the next token from the
generator and only then runs the body, so the flag check happens after the
pull.  The result is the list of emitted tokens together with the number of
times the loop pulled a token from the generator.
-/

def consume_stream : List String → ℕ → List String × ℕ
  | [], _ => ([], 0)
  | _ :: _, 0 => ([], 1)
  | t :: ts, k + 1 =>
      ((consume_stream ts k).1.cons t, (consume_stream ts k).2 + 1)

end EnhancedMain

namespace Recorder
/-!
Embedding of the stop path shared by
`src/core/audio_transcriber.py::record_until_enter` (lines 144-159) and
`main_enhanced.py::record_manual_control` (lines 487-502):

    if not frames:
        return np.zeros((1, 1), dtype=np.float32), elapsed
    chunk = np.concatenate(frames, axis=0)
    if chunk.ndim == 2 and chunk.shape[1] > 1:
        chunk = np.mean(chunk, axis=1, keepdims=True)
    ...
    return chunk, elapsed

A frame is a list of sample rows, one entry per channel per row; `channels`
is the channel count of the stream (`chunk.shape[1]`).
-/

def stop_recording (frames : List (List (List ℚ))) (channels : ℕ) (elapsed : ℚ) :
    List (List ℚ) × ℚ :=
  if frames.isEmpty then ([[0]], elapsed)
  else
    let chunk := frames.flatten
    if 1 < channels then
      (chunk.map (fun row => [PyQ.divN (PyQ.qsum row) row.length]), elapsed)
    else (chunk, elapsed)

end Recorder

namespace AudioTranscriber
/-!
Embedding of `src/core/audio_transcriber.py::transcribe_chunk`.

The audio chunk is the mono sample list (the source first takes the first
channel of a two-dimensional array).  The Whisper engine is an oracle
parameter: `none` when `model.transcribe` raises, otherwise the list of
segment texts.  `engineCalls` counts invocations of the oracle.

The silence test in the source is `np.sqrt(np.mean(np.square(audio))) <
1e-4`; for a chunk this is equivalent to the mean of squares being below
`1e-8`, which is the comparison used here to stay in exact arithmetic.
-/

structure TranscribeResult where
  text : String
  engineCalls : ℕ
deriving DecidableEq

def meanSquares (a : List ℚ) : ℚ :=
  PyQ.divN (PyQ.qsum (a.map (fun x => PyQ.mul x x))) a.length

/-- Linear interpolation in the style of `np.interp` of `audio` at sample position `t`
(clamped to the last sample beyond the right edge). -/
def interpAt (audio : List ℚ) (t : ℚ) : ℚ :=
  let i := (Rat.floor t).toNat
  match audio.get? i, audio.get? (i + 1) with
  | some a, some b => PyQ.add a (PyQ.mul (PyQ.sub t (Rat.divInt i 1)) (PyQ.sub b a))
  | some a, none => a
  | none, _ => 0

/-- The resampling block of `transcribe_chunk`: new length
`ceil(len * 16000 / input_rate)`, sample positions `linspace(0, len-1,
new_length)`, linear interpolation at each position. -/
def resample16k (audio : List ℚ) (input_rate : ℕ) : List ℚ :=
  if input_rate = 16000 then audio
  else
    let n := audio.length
    let newLen := (n * 16000 + input_rate - 1) / input_rate
    (List.range newLen).map fun j =>
      interpAt audio (if newLen ≤ 1 then 0 else Rat.divInt ((n - 1) * j) (newLen - 1))

/-- Python `" ".join(parts)` on character lists. -/
def joinSpace : List (List Char) → List Char
  | [] => []
  | [s] => s
  | s :: rest => s ++ ' ' :: joinSpace rest

/-- Embedding of `transcribe_chunk`. -/
def transcribe_chunk (engine : List ℚ → Option (List String))
    (audio_mono : List ℚ) (input_rate : ℕ) : TranscribeResult :=
  if meanSquares audio_mono < PyQ.ratioN 1 100000000 then
    ⟨"(no speech detected)", 0⟩
  else
    let audio16 := resample16k audio_mono input_rate
    match engine audio16 with
    | none => ⟨"(transcription failed)", 1⟩
    | some segs =>
        let text_parts := (segs.map (fun s => PyStr.strip s.data)).filter (fun cs => !cs.isEmpty)
        let text := PyStr.strip (joinSpace text_parts)
        ⟨if text.isEmpty then "(no speech detected)" else String.mk text, 1⟩

end AudioTranscriber

namespace UnifiedLLMClient
/-!
Embedding of `src/core/unified_llm_client.py`
(`UnifiedLLMClient.generate_stream`, `_generate_groq_stream`,
`_generate_ollama_stream`).

The client state after `__init__` is the pair (`self.provider`,
`self.working`).  The network behavior of one streaming HTTP request is an
explicit outcome value; `generate_stream` maps the outcome of the single
request the active provider makes to the sequence of yielded strings,
together with the list of providers contacted during the call.
-/

inductive Provider
  | groq
  | ollama
deriving DecidableEq

structure ClientState where
  provider : Option Provider
  working : Bool
deriving DecidableEq

/-- Observable behavior of one Groq streaming request.
`httpError`: `requests.post` returns a non-200 status.
`streamThenRaise cs`: the request or the line iteration raises (timeout or
any exception) after the `content` fragments `cs` were parsed and yielded;
`cs = []` covers a failure before any token.
`streamOk cs`: the stream delivers `cs` and ends (`[DONE]` or exhaustion). -/
inductive GroqOutcome
  | httpError (status : ℕ)
  | streamThenRaise (contents : List String)
  | streamOk (contents : List String)
deriving DecidableEq

/-- Embedding of `UnifiedLLMClient._generate_groq_stream`: the strings yielded. -/
def generate_groq_stream : GroqOutcome → Option String → List String
  | .httpError _, fb => fb.toList
  | .streamThenRaise cs, fb => cs ++ fb.toList
  | .streamOk cs, _ => cs

/-- One parsed JSON line of an Ollama streaming response. -/
inductive OllamaEvent
  | errorField (msg : String)
  | response (s : String)
  | doneMark
deriving DecidableEq

/-- Observable behavior of one Ollama streaming request: non-200 status, or
the parsed lines followed (optionally) by an exception. -/
inductive OllamaOutcome
  | httpError (status : ℕ)
  | events (evs : List OllamaEvent) (raisesAfter : Bool)
deriving DecidableEq

/-- The line loop of `_generate_ollama_stream`; `n` is `token_count`. -/
def ollama_loop (fb : Option String) (raisesAfter : Bool) :
    List OllamaEvent → ℕ → List String
  | [], n => if raisesAfter then fb.toList else if n = 0 then fb.toList else []
  | .errorField _ :: _, n => if n = 0 then fb.toList else []
  | .response s :: rest, n =>
      if s.isEmpty then ollama_loop fb raisesAfter rest n
      else s :: ollama_loop fb raisesAfter rest (n + 1)
  | .doneMark :: _, _ => []

/-- Embedding of `UnifiedLLMClient._generate_ollama_stream`: the strings yielded. -/
def generate_ollama_stream : OllamaOutcome → Option String → List String
  | .httpError _, fb => fb.toList
  | .events evs raisesAfter, fb => ollama_loop fb raisesAfter evs 0

/-- Embedding of `UnifiedLLMClient.generate_stream`.  Returns the yielded strings and
the list of providers contacted during this call. -/
def generate_stream (st : ClientState) (groqOut : GroqOutcome)
    (ollamaOut : OllamaOutcome) (fallback_response : Option String) :
    List String × List Provider :=
  if !st.working then (fallback_response.toList, [])
  else
    match st.provider with
    | some .groq => (generate_groq_stream groqOut fallback_response, [.groq])
    | some .ollama => (generate_ollama_stream ollamaOut fallback_response, [.ollama])
    | none => ([], [])

end UnifiedLLMClient

namespace AudioDeviceUtil
/-!
Embedding of `src/core/audio_device_util.py` (`pick_system_audio_device`).

The host environment is a record: the `FORCE_DEVICE_INDEX` override, the
device table returned by `sd.query_devices()`, the results of
`_test_loopback_device` and `_test_input_device` per device index, and the
result of `sd.query_devices(None, "input")` (`none` when it raises).
-/

structure Device where
  name : String
  hostapi : String
  max_input_channels : ℕ
  max_output_channels : ℕ
  default_samplerate : ℕ
deriving DecidableEq

structure DevicePick where
  index : ℕ
  samplerate : ℕ
  name : String
  hostapi_name : String
  wasapi_loopback : Bool
deriving DecidableEq

structure AudioEnv where
  force_device_index : Option ℕ
  devices : List Device
  loopback_test : ℕ → Bool
  input_test : ℕ → Bool
  default_input : Option Device

/-- Embedding of `_safe_default_samplerate`. -/
def safe_default_samplerate (d : Device) (prefer : ℕ) : ℕ :=
  if 0 < d.default_samplerate then d.default_samplerate else prefer

/-- Case-insensitive alternation search
`re.search(r"(w1|w2|...)", name, re.I)`. -/
def containsAnyCI (name : String) (words : List String) : Bool :=
  words.any fun w => PyStr.isSubstr (PyStr.lower w.data) (PyStr.lower name.data)

/-- The loopback-candidate name filter:
`re.search(r"(Speakers|Headphones|Realtek|Output|Default)", name, re.I)
or "loopback" in name.lower()`. -/
def loopback_name_ok (name : String) : Bool :=
  containsAnyCI name ["Speakers", "Headphones", "Realtek", "Output", "Default"]
    || PyStr.isSubstr "loopback".data (PyStr.lower name.data)

/-- The virtual-input name filter. -/
def virtual_name_ok (name : String) : Bool :=
  containsAnyCI name
    ["CABLE Output", "VB-Audio", "Voicemeeter Out", "Stereo Mix", "Virtual", "Monitor"]

/-- Python `"WASAPI" in host` (case-sensitive). -/
def is_wasapi (host : String) : Bool :=
  PyStr.isSubstr "WASAPI".data host.data

/-- Embedding of `pick_system_audio_device`.  The source never raises: every branch
returns a `DevicePick`, falling through to the OS default entry and
finally to a hard-coded "Default Device" record. -/
def pick_system_audio_device (env : AudioEnv) (prefer_rate : ℕ) : DevicePick :=
  match env.force_device_index with
  | some i =>
      let d := env.devices.getD i ⟨"Unknown", "Unknown", 0, 0, 0⟩
      ⟨i, safe_default_samplerate d prefer_rate, d.name, d.hostapi,
        is_wasapi d.hostapi && 0 < d.max_output_channels⟩
  | none =>
      let working_loopbacks :=
        ((env.devices.enum.filter fun p =>
            is_wasapi p.2.hostapi && 0 < p.2.max_output_channels
              && loopback_name_ok p.2.name && env.loopback_test p.1).map
          fun p => (⟨p.1, safe_default_samplerate p.2 prefer_rate, p.2.name,
            p.2.hostapi, true⟩ : DevicePick))
      let working_virtuals :=
        ((env.devices.enum.filter fun p =>
            0 < p.2.max_input_channels && virtual_name_ok p.2.name
              && env.input_test p.1).map
          fun p => (⟨p.1, safe_default_samplerate p.2 prefer_rate, p.2.name,
            p.2.hostapi, false⟩ : DevicePick))
      match working_loopbacks with
      | choice :: _ => choice
      | [] =>
        match working_virtuals with
        | choice :: _ => choice
        | [] =>
          match (env.devices.enum.filter fun p =>
              0 < p.2.max_input_channels && env.input_test p.1).head? with
          | some p =>
              ⟨p.1, safe_default_samplerate p.2 prefer_rate, p.2.name, p.2.hostapi, false⟩
          | none =>
            match env.default_input with
            | some d => ⟨0, prefer_rate, d.name, d.hostapi, false⟩
            | none => ⟨0, prefer_rate, "Default Device", "Unknown", false⟩

end AudioDeviceUtil

/-!
Helper lemmas: bridges from the kernel-reducible operations to the standard
Mathlib operations, and structural lemmas shared by the claim theorems.
-/

theorem PyStr.pymin_eq_min (a b : ℚ) : PyStr.pymin a b = min a b := (min_def a b).symm

theorem PyStr.pymax_eq_max (a b : ℚ) : PyStr.pymax a b = max a b := by
  unfold PyStr.pymax
  rcases le_total a b with h | h
  · rcases eq_or_lt_of_le h with rfl | h'
    · simp
    · rw [if_neg (not_le.mpr h'), max_eq_right h]
  · rw [if_pos h, max_eq_left h]

theorem PyQ.add_eq (a b : ℚ) : PyQ.add a b = a + b := by
  unfold PyQ.add
  rw [Rat.divInt_eq_div]
  push_cast
  conv_rhs => rw [← Rat.num_div_den a, ← Rat.num_div_den b]
  have ha : ((a.den : ℚ)) ≠ 0 := Nat.cast_ne_zero.mpr a.den_nz
  have hb : ((b.den : ℚ)) ≠ 0 := Nat.cast_ne_zero.mpr b.den_nz
  field_simp

theorem PyQ.sub_eq (a b : ℚ) : PyQ.sub a b = a - b := by
  unfold PyQ.sub
  rw [Rat.divInt_eq_div]
  push_cast
  conv_rhs => rw [← Rat.num_div_den a, ← Rat.num_div_den b]
  have ha : ((a.den : ℚ)) ≠ 0 := Nat.cast_ne_zero.mpr a.den_nz
  have hb : ((b.den : ℚ)) ≠ 0 := Nat.cast_ne_zero.mpr b.den_nz
  field_simp
  ring

theorem PyQ.mul_eq (a b : ℚ) : PyQ.mul a b = a * b := by
  unfold PyQ.mul
  rw [Rat.divInt_eq_div]
  push_cast
  conv_rhs => rw [← Rat.num_div_den a, ← Rat.num_div_den b]
  have ha : ((a.den : ℚ)) ≠ 0 := Nat.cast_ne_zero.mpr a.den_nz
  have hb : ((b.den : ℚ)) ≠ 0 := Nat.cast_ne_zero.mpr b.den_nz
  field_simp

theorem PyQ.divN_eq (a : ℚ) (n : ℕ) : PyQ.divN a n = a / n := by
  unfold PyQ.divN
  rw [Rat.divInt_eq_div]
  push_cast
  rw [← div_div, Rat.num_div_den]

theorem PyQ.ratioN_eq (m n : ℕ) : PyQ.ratioN m n = (m : ℚ) / n := by
  unfold PyQ.ratioN
  rw [Rat.divInt_eq_div]
  push_cast
  rfl

theorem PyQ.qsum_eq (l : List ℚ) : PyQ.qsum l = l.sum := by
  induction l with
  | nil => rfl
  | cons x xs ih => simp [PyQ.qsum, List.foldr, PyQ.add_eq, List.sum_cons] at ih ⊢; rw [ih]

theorem PyQ.divInt_intCast_one (n : ℤ) : Rat.divInt n 1 = (n : ℚ) := by
  rw [Rat.divInt_eq_div]
  norm_num

theorem PyQ.ratioN_half : PyQ.ratioN 1 2 = 1 / 2 := by
  rw [PyQ.ratioN_eq]
  norm_num

theorem PyQ.ratioN_hundredMillionth : PyQ.ratioN 1 100000000 = 1 / 100000000 := by
  rw [PyQ.ratioN_eq]
  norm_num

theorem Rat.floor_eq_intFloor (q : ℚ) : Rat.floor q = ⌊q⌋ :=
  (Rat.floor_def' q).trans Rat.floor_def.symm

theorem List.filterMap_id_map_some {α : Type} (l : List α) :
    (l.map some).filterMap id = l := by
  induction l with
  | nil => rfl
  | cons x xs ih => simp [ih]

theorem List.filterMap_id_replicate_none {α : Type} (n : ℕ) :
    (List.replicate n (none : Option α)).filterMap id = [] := by
  induction n with
  | zero => rfl
  | succ n ih => simp [List.replicate_succ, ih]

theorem AnswerGenerator.roundHalfEven_bounds (y : ℚ) (a b : ℤ)
    (ha : (a : ℚ) ≤ y) (hb : y ≤ (b : ℚ)) :
    a ≤ AnswerGenerator.roundHalfEven y ∧ AnswerGenerator.roundHalfEven y ≤ b := by
  have hfl : Rat.floor y = ⌊y⌋ := Rat.floor_eq_intFloor y
  have hlow : a ≤ ⌊y⌋ := Int.le_floor.mpr ha
  have hfloor_le : (⌊y⌋ : ℚ) ≤ y := Int.floor_le y
  have hup : ⌊y⌋ ≤ b := by
    have := Int.floor_le_floor hb
    simpa using this
  have hsucc : (1 : ℚ) / 2 ≤ y - (⌊y⌋ : ℚ) → ⌊y⌋ + 1 ≤ b := by
    intro hge
    have hlt : (⌊y⌋ : ℚ) < (b : ℚ) := by linarith
    exact_mod_cast Int.add_one_le_of_lt (by exact_mod_cast hlt)
  unfold AnswerGenerator.roundHalfEven
  rw [hfl, PyQ.sub_eq, PyQ.divInt_intCast_one, PyQ.ratioN_half]
  split_ifs with h1 h2 h3
  · exact ⟨hlow, hup⟩
  · exact ⟨le_trans hlow (by omega), hsucc (by linarith)⟩
  · exact ⟨hlow, hup⟩
  · exact ⟨le_trans hlow (by omega), hsucc (by linarith)⟩

theorem AnswerGenerator.round2_bounds (x : ℚ) (h1 : 1 / 2 ≤ x) (h2 : x ≤ 19 / 20) :
    1 / 2 ≤ AnswerGenerator.round2 x ∧ AnswerGenerator.round2 x ≤ 19 / 20 := by
  have hmul : PyQ.mul x 100 = x * 100 := PyQ.mul_eq x 100
  obtain ⟨hl, hu⟩ := AnswerGenerator.roundHalfEven_bounds (PyQ.mul x 100) 50 95
    (by rw [hmul]; push_cast; linarith) (by rw [hmul]; push_cast; linarith)
  have hlq : (50 : ℚ) ≤ (AnswerGenerator.roundHalfEven (PyQ.mul x 100) : ℚ) := by
    exact_mod_cast hl
  have huq : ((AnswerGenerator.roundHalfEven (PyQ.mul x 100)) : ℚ) ≤ 95 := by
    exact_mod_cast hu
  unfold AnswerGenerator.round2
  rw [Rat.divInt_eq_div]
  constructor
  · push_cast
    linarith
  · push_cast
    linarith

theorem EnhancedMain.consume_stream_emitted (ts : List String) (k : ℕ) :
    (EnhancedMain.consume_stream ts k).1 = ts.take k := by
  induction ts generalizing k with
  | nil => cases k <;> rfl
  | cons t ts ih =>
    cases k with
    | zero => rfl
    | succ k => simp [EnhancedMain.consume_stream, ih]

theorem EnhancedMain.consume_stream_pulls (ts : List String) (k : ℕ) :
    (EnhancedMain.consume_stream ts k).2 = min (k + 1) ts.length := by
  induction ts generalizing k with
  | nil => cases k <;> rfl
  | cons t ts ih =>
    cases k with
    | zero => simp [EnhancedMain.consume_stream]
    | succ k =>
      simp only [EnhancedMain.consume_stream, ih, List.length_cons]
      omega

theorem AudioProcessor.foldl_add_to_buffer (chunks : List (List ℚ)) :
    ∀ init, chunks.foldl AudioProcessor.add_to_buffer init = init ++ chunks := by
  induction chunks with
  | nil => intro init; simp
  | cons c cs ih =>
    intro init
    simp [AudioProcessor.add_to_buffer, ih]

theorem QuestionDetector.determine_type_cases (t : List Char) :
    QuestionDetector.determine_type t = "behavioral" ∨
    QuestionDetector.determine_type t = "technical" ∨
    QuestionDetector.determine_type t = "general" := by
  unfold QuestionDetector.determine_type
  dsimp only
  split_ifs <;> simp

/-!
Claim theorems.
-/

/-- C1 counterexample.  The claim says a provider error before any token
triggers exactly one retry against the other provider before the canned
fallback string, and that an error after tokens were emitted surfaces the
error without yielding the fallback.  In the code, a Groq client whose
request raises before any token simply yields the fallback string and
contacts no other provider (the count of Ollama attempts is 0, not 1), and
a Groq request that raises after three tokens appends the fallback string
to the partial output instead of surfacing an error. -/
theorem C1_counterexample :
    UnifiedLLMClient.generate_stream ⟨some .groq, true⟩ (.streamThenRaise [])
        (.events [] false) (some "canned fallback") =
      (["canned fallback"], [.groq]) ∧
    (UnifiedLLMClient.generate_stream ⟨some .groq, true⟩ (.streamThenRaise [])
        (.events [] false) (some "canned fallback")).2.count .ollama = 0 ∧
    (0 : ℕ) ≠ 1 ∧
    UnifiedLLMClient.generate_stream ⟨some .groq, true⟩
        (.streamThenRaise ["a", "b", "c"]) (.events [] false) (some "canned fallback") =
      (["a", "b", "c", "canned fallback"], [.groq]) :=
  ⟨by decide, by decide, by decide, by decide⟩

/-- C1, amended.  At call time the client only ever contacts its active
provider: the contacted-provider list is exactly the active provider,
whatever the outcome.  If the active Groq request errors before any token
(exception or non-200 status), the call yields exactly the canned fallback
string; if the Groq request raises after tokens were emitted, the call
yields those tokens and then the fallback string (no provider switch and no
error surfaced); an Ollama in-stream error after a token ends the stream
without the fallback. -/
theorem C1_theorem (fb : Option String) (gOut : UnifiedLLMClient.GroqOutcome)
    (oOut : UnifiedLLMClient.OllamaOutcome) (cs : List String) (s : String) :
    (UnifiedLLMClient.generate_stream ⟨some .groq, true⟩ gOut oOut fb).2 = [.groq] ∧
    (UnifiedLLMClient.generate_stream ⟨some .ollama, true⟩ gOut oOut fb).2 = [.ollama] ∧
    (UnifiedLLMClient.generate_stream ⟨some .groq, true⟩ (.streamThenRaise []) oOut fb).1 =
      fb.toList ∧
    (UnifiedLLMClient.generate_stream ⟨some .groq, true⟩ (.httpError 500) oOut fb).1 =
      fb.toList ∧
    (UnifiedLLMClient.generate_stream ⟨some .groq, true⟩ (.streamThenRaise cs) oOut fb).1 =
      cs ++ fb.toList ∧
    (UnifiedLLMClient.generate_stream ⟨some .ollama, true⟩ gOut
        (.events [.response "x", .errorField s] false) fb).1 = ["x"] := by
  exact ⟨rfl, rfl, by simp [UnifiedLLMClient.generate_stream,
    UnifiedLLMClient.generate_groq_stream], rfl, by simp [UnifiedLLMClient.generate_stream,
    UnifiedLLMClient.generate_groq_stream], rfl⟩

/-- C2 counterexample.  The claim says the device picker fails with a
DeviceUnavailable error when no candidate device opens, rather than
silently returning a device handle.  The source has no raise path at all:
in an environment with one input device that fails its open test and an
unavailable OS default, the picker returns the hard-coded last-resort
handle named "Default Device". -/
theorem C2_counterexample :
    AudioDeviceUtil.pick_system_audio_device
      ⟨none, [⟨"Mic", "MME", 2, 0, 44100⟩], fun _ => false, fun _ => false, none⟩ 48000 =
      ⟨0, 48000, "Default Device", "Unknown", false⟩ := by
  decide

/-- C2, amended.  When no forced index is set, no device passes the
loopback or input open tests, and the OS default input query fails, the
picker does not fail: it returns the last-resort handle
(index 0, the preferred rate, name "Default Device", host API "Unknown",
no loopback). -/
theorem C2_theorem (env : AudioDeviceUtil.AudioEnv) (prefer_rate : ℕ)
    (hforce : env.force_device_index = none)
    (hlb : ∀ i, env.loopback_test i = false)
    (hin : ∀ i, env.input_test i = false)
    (hdef : env.default_input = none) :
    AudioDeviceUtil.pick_system_audio_device env prefer_rate =
      ⟨0, prefer_rate, "Default Device", "Unknown", false⟩ := by
  have hlb_nil : (env.devices.enum.filter fun p =>
      AudioDeviceUtil.is_wasapi p.2.hostapi && 0 < p.2.max_output_channels
        && AudioDeviceUtil.loopback_name_ok p.2.name && env.loopback_test p.1) = [] := by
    refine List.filter_eq_nil_iff.mpr ?_
    intro p hp
    simp [hlb p.1]
  have hvirt_nil : (env.devices.enum.filter fun p =>
      0 < p.2.max_input_channels && AudioDeviceUtil.virtual_name_ok p.2.name
        && env.input_test p.1) = [] := by
    refine List.filter_eq_nil_iff.mpr ?_
    intro p hp
    simp [hin p.1]
  have hany_nil : (env.devices.enum.filter fun p =>
      0 < p.2.max_input_channels && env.input_test p.1) = [] := by
    refine List.filter_eq_nil_iff.mpr ?_
    intro p hp
    simp [hin p.1]
  unfold AudioDeviceUtil.pick_system_audio_device
  rw [hforce]
  dsimp only
  rw [hlb_nil, hvirt_nil, hany_nil, hdef]
  rfl

/-- C2 witness: the amended theorem applied to the environment with no
devices at all, a preferred rate of 48000, and an unavailable OS default. -/
theorem C2_witness :
    ((⟨none, [], fun _ => false, fun _ => false, none⟩ :
        AudioDeviceUtil.AudioEnv).force_device_index = none) ∧
    ((⟨none, [], fun _ => false, fun _ => false, none⟩ :
        AudioDeviceUtil.AudioEnv).default_input = none) ∧
    AudioDeviceUtil.pick_system_audio_device
        ⟨none, [], fun _ => false, fun _ => false, none⟩ 48000 =
      ⟨0, 48000, "Default Device", "Unknown", false⟩ :=
  ⟨rfl, rfl, C2_theorem ⟨none, [], fun _ => false, fun _ => false, none⟩ 48000 rfl
    (fun _ => rfl) (fun _ => rfl) rfl⟩

/-- C3 counterexample.  The claim (following the specification) says a
silent chunk produces a no-speech result with confidence 0.  The source
function returns only a text string: for a silent chunk it returns the
marker string "(no speech detected)" — not an empty text, and with no
confidence value attached — while indeed never calling the engine. -/
theorem C3_counterexample :
    AudioTranscriber.transcribe_chunk (fun _ => some ["hello"]) [0, 0, 0, 0] 48000 =
      ⟨"(no speech detected)", 0⟩ ∧
    ("(no speech detected)" : String) ≠ "" :=
  ⟨by decide, by decide⟩

/-- C3, amended.  For every nonempty audio chunk whose mean square (the
square of the RMS energy) is below 1e-8 — equivalently, RMS below the
silence threshold 1e-4 — `transcribe_chunk` returns the marker string
"(no speech detected)" and the engine call count is 0, for any engine. -/
theorem C3_theorem (engine : List ℚ → Option (List String)) (audio : List ℚ)
    (input_rate : ℕ) (_hne : audio ≠ [])
    (hsil : AudioTranscriber.meanSquares audio < 1 / 100000000) :
    AudioTranscriber.transcribe_chunk engine audio input_rate =
      ⟨"(no speech detected)", 0⟩ := by
  unfold AudioTranscriber.transcribe_chunk
  rw [if_pos]
  rw [PyQ.ratioN_hundredMillionth]
  exact hsil

/-- C3 witness: the amended theorem applied to the silent chunk `[0]` at
rate 44100 with an engine that would return "hi". -/
theorem C3_witness :
    ([(0 : ℚ)] ≠ []) ∧
    (AudioTranscriber.meanSquares [(0 : ℚ)] < 1 / 100000000) ∧
    AudioTranscriber.transcribe_chunk (fun _ => some ["hi"]) [(0 : ℚ)] 44100 =
      ⟨"(no speech detected)", 0⟩ := by
  refine ⟨by simp, ?_, C3_theorem (fun _ => some ["hi"]) [(0 : ℚ)] 44100 (by simp) ?_⟩ <;>
    · rw [← PyQ.ratioN_hundredMillionth]
      decide

/-- C4 counterexample.  The claim says that when the engine yields no
segments the confidence is the fixed neutral value 0.5; in the code an
empty segment list produces confidence 0.0 (the 0.5 value is reserved for
the case where segments exist but none carries a no-speech probability). -/
theorem C4_counterexample :
    TranscriptionService.calculate_confidence (some []) = 0 ∧ (0 : ℚ) ≠ 1 / 2 :=
  ⟨by decide, by norm_num⟩

/-- C4, amended.  The confidence is the average of (1 − no-speech
probability) over the segments that carry a no-speech probability; when the
result has no segments key or an empty segment list the confidence is 0;
the fixed neutral value 0.5 is returned exactly when segments exist but
none of them carries a no-speech probability. -/
theorem C4_theorem (ps : List ℚ) (n : ℕ) :
    TranscriptionService.calculate_confidence none = 0 ∧
    TranscriptionService.calculate_confidence (some []) = 0 ∧
    (ps ≠ [] →
      TranscriptionService.calculate_confidence (some (ps.map some)) =
        ((ps.map fun p => 1 - p).sum) / (ps.length : ℚ)) ∧
    (n ≠ 0 →
      TranscriptionService.calculate_confidence
        (some (List.replicate n (none : Option ℚ))) = 1 / 2) := by
  refine ⟨rfl, rfl, ?_, ?_⟩
  · intro h
    cases ps with
    | nil => exact absurd rfl h
    | cons p ps' =>
      have hstep : TranscriptionService.calculate_confidence
          (some (List.map some (p :: ps'))) =
          (let confidences :=
            ((List.map some (p :: ps')).filterMap id).map fun q => PyQ.sub 1 q
          if confidences.isEmpty then PyQ.ratioN 1 2
          else PyQ.divN (PyQ.qsum confidences) confidences.length) := rfl
      rw [hstep, List.filterMap_id_map_some]
      have hmap : (p :: ps').map (fun q => PyQ.sub 1 q) = (p :: ps').map fun q => 1 - q :=
        List.map_congr_left fun a _ => PyQ.sub_eq 1 a
      dsimp only
      rw [hmap]
      rw [show ((p :: ps').map fun q => (1 : ℚ) - q).isEmpty = false from rfl]
      rw [if_neg (by simp)]
      rw [PyQ.divN_eq, PyQ.qsum_eq, List.length_map]
  · intro h
    cases n with
    | zero => exact absurd rfl h
    | succ m =>
      have hstep : TranscriptionService.calculate_confidence
          (some (List.replicate (m + 1) (none : Option ℚ))) =
          (let confidences :=
            ((List.replicate (m + 1) (none : Option ℚ)).filterMap id).map
              fun q => PyQ.sub 1 q
          if confidences.isEmpty then PyQ.ratioN 1 2
          else PyQ.divN (PyQ.qsum confidences) confidences.length) := rfl
      rw [hstep, List.filterMap_id_replicate_none]
      exact PyQ.ratioN_half

/-- C4 witness: the amended theorem applied to the two-segment list with
probabilities 1/4 and 3/4, and to two segments lacking the probability. -/
theorem C4_witness :
    ([(1 : ℚ) / 4, 3 / 4] ≠ []) ∧ (2 ≠ 0) ∧
    TranscriptionService.calculate_confidence (some ([(1 : ℚ) / 4, 3 / 4].map some)) =
      (([(1 : ℚ) / 4, 3 / 4].map fun p => 1 - p).sum) / (([(1 : ℚ) / 4, 3 / 4].length : ℚ)) ∧
    TranscriptionService.calculate_confidence
      (some (List.replicate 2 (none : Option ℚ))) = 1 / 2 :=
  ⟨by simp, by norm_num, (C4_theorem [(1 : ℚ) / 4, 3 / 4] 2).2.2.1 (by simp),
    (C4_theorem [(1 : ℚ) / 4, 3 / 4] 2).2.2.2 (by norm_num)⟩

/-- C5 counterexample.  The claim says that when the cancellation flag is
set after token k the consumer performs no further engine reads.  With a
five-token stream and the flag set after token 3, the loop emits exactly
the first three tokens but performs four generator pulls: the Python `for`
loop pulls the next token from the generator before the flag check, so one
further engine read happens after the flag is set. -/
theorem C5_counterexample :
    EnhancedMain.consume_stream ["t1", "t2", "t3", "t4", "t5"] 3 =
      (["t1", "t2", "t3"], 4) ∧ (4 : ℕ) ≠ 3 :=
  ⟨by decide, by decide⟩

/-- C5, amended.  If the consumer sets the cancellation flag after token k,
the emitted tokens are exactly the first k tokens of the stream (so at most
k+1 are observed, as claimed), and the loop performs at most one further
generator pull beyond the emitted tokens: it pulls the next token, then
checks the flag and discards the pulled token without emitting it. -/
theorem C5_theorem (tokens : List String) (k : ℕ) :
    (EnhancedMain.consume_stream tokens k).1 = tokens.take k ∧
    (EnhancedMain.consume_stream tokens k).1.length ≤ k + 1 ∧
    (EnhancedMain.consume_stream tokens k).2 = min (k + 1) tokens.length ∧
    (EnhancedMain.consume_stream tokens k).2 ≤
      (EnhancedMain.consume_stream tokens k).1.length + 1 := by
  refine ⟨EnhancedMain.consume_stream_emitted tokens k, ?_,
    EnhancedMain.consume_stream_pulls tokens k, ?_⟩
  · rw [EnhancedMain.consume_stream_emitted, List.length_take]
    omega
  · rw [EnhancedMain.consume_stream_pulls, EnhancedMain.consume_stream_emitted,
      List.length_take]
    omega

/-- C6.  For every input text, the classifier confidence equals
min(match count / 2, 1) when the text is classified as a question and 0
otherwise, where the match count is the number of the five fixed
regular-expression probes that match the stripped text (each probe
contributing at most 1 however often it occurs); the match count never
exceeds 5. -/
theorem C6_theorem (text : String) :
    (QuestionDetector.is_question text).confidence =
      (if (QuestionDetector.is_question text).is_question = true
       then min ((QuestionDetector.matchCount (PyStr.strip text.data) : ℚ) / 2) 1
       else 0) ∧
    QuestionDetector.matchCount (PyStr.strip text.data) ≤ 5 := by
  constructor
  · by_cases h : (PyStr.strip text.data).length < 5
    · simp [QuestionDetector.is_question, h]
    · simp only [QuestionDetector.is_question, if_neg h]
      by_cases hq : (decide (1 ≤ QuestionDetector.matchCount (PyStr.strip text.data))
          || PyStr.endsWith (PyStr.strip text.data) ['?']) = true
      · rw [if_pos hq, if_pos hq, PyStr.pymin_eq_min, PyQ.ratioN_eq]
        norm_num
      · rw [if_neg hq, if_neg hq]
  · exact List.length_filter_le _ _

/-- C7 counterexample.  The claim says the answer confidence equals the
token-overlap ratio clamped into [0.5, 0.95].  For the answer
"alpha beta gamma" against context "alpha beta", the overlap ratio is 2/3,
inside the clamp interval, yet the code returns round(2/3, 2) = 0.67 ≠ 2/3:
the score is the clamped ratio rounded to two decimal places, not the
clamped ratio itself. -/
theorem C7_counterexample :
    AnswerGenerator.calculate_confidence "q" "alpha beta gamma" "alpha beta" "" =
      Rat.divInt 67 100 ∧
    Rat.divInt 67 100 ≠ min (19 / 20 : ℚ) (max (1 / 2 : ℚ) ((2 : ℚ) / 3)) := by
  constructor
  · decide
  · rw [Rat.divInt_eq_div]
    push_cast
    norm_num [min_def, max_def]

/-- C7, amended.  The answer confidence is the token-overlap ratio between
the word set of the answer and the word set of the concatenated context,
clamped into [0.5, 0.95] and rounded to two decimal places; it always lies
in [0.5, 0.95], and in particular is never exactly 0 and never exactly 1,
including when the answer has no words (where it is 0.5). -/
theorem C7_theorem (question answer resume_ctx jd_ctx : String) :
    1 / 2 ≤ AnswerGenerator.calculate_confidence question answer resume_ctx jd_ctx ∧
    AnswerGenerator.calculate_confidence question answer resume_ctx jd_ctx ≤ 19 / 20 ∧
    AnswerGenerator.calculate_confidence question answer resume_ctx jd_ctx ≠ 0 ∧
    AnswerGenerator.calculate_confidence question answer resume_ctx jd_ctx ≠ 1 := by
  have key : ∀ ov tot : ℕ,
      1 / 2 ≤ AnswerGenerator.round2 (PyStr.pymin (PyQ.ratioN 19 20)
        (PyStr.pymax (PyQ.ratioN 1 2) (PyQ.ratioN ov tot))) ∧
      AnswerGenerator.round2 (PyStr.pymin (PyQ.ratioN 19 20)
        (PyStr.pymax (PyQ.ratioN 1 2) (PyQ.ratioN ov tot))) ≤ 19 / 20 := by
    intro ov tot
    have h1 : (1 : ℚ) / 2 ≤ PyStr.pymin (PyQ.ratioN 19 20)
        (PyStr.pymax (PyQ.ratioN 1 2) (PyQ.ratioN ov tot)) := by
      rw [PyStr.pymin_eq_min, PyStr.pymax_eq_max, PyQ.ratioN_half]
      refine le_min ?_ (le_max_left _ _)
      rw [PyQ.ratioN_eq]
      norm_num
    have h2 : PyStr.pymin (PyQ.ratioN 19 20)
        (PyStr.pymax (PyQ.ratioN 1 2) (PyQ.ratioN ov tot)) ≤ 19 / 20 := by
      rw [PyStr.pymin_eq_min]
      refine le_trans (min_le_left _ _) ?_
      rw [PyQ.ratioN_eq]
      norm_num
    exact AnswerGenerator.round2_bounds _ h1 h2
  have hb : 1 / 2 ≤ AnswerGenerator.calculate_confidence question answer resume_ctx jd_ctx ∧
      AnswerGenerator.calculate_confidence question answer resume_ctx jd_ctx ≤ 19 / 20 := by
    unfold AnswerGenerator.calculate_confidence
    dsimp only
    split_ifs with h
    · rw [PyQ.ratioN_half]
      norm_num
    · exact key _ _
  refine ⟨hb.1, hb.2, ?_, ?_⟩
  · intro h0
    rw [h0] at hb
    linarith [hb.1]
  · intro h1'
    rw [h1'] at hb
    linarith [hb.2]

/-- C8.  If recording stops before any frames arrive, the capture component
returns a chunk consisting of a single zero sample together with the
elapsed duration; when frames did arrive and the stream is multi-channel,
the concatenated frames are downmixed to mono by the arithmetic mean across
channels. -/
theorem C8_theorem (channels : ℕ) (elapsed : ℚ) (frames : List (List (List ℚ))) :
    Recorder.stop_recording [] channels elapsed = ([[0]], elapsed) ∧
    (frames ≠ [] → 1 < channels →
      Recorder.stop_recording frames channels elapsed =
        (frames.flatten.map fun row => [row.sum / (row.length : ℚ)], elapsed)) := by
  constructor
  · rfl
  · intro hne hch
    unfold Recorder.stop_recording
    rw [if_neg (by simp [hne])]
    dsimp only
    rw [if_pos hch]
    refine congrArg (fun l => (l, elapsed)) ?_
    exact List.map_congr_left fun row _ => by rw [PyQ.divN_eq, PyQ.qsum_eq]

/-- C8 witness: the theorem applied to one stereo frame holding the rows
(1, 3) and (2, 4), whose per-row channel means are 2 and 3. -/
theorem C8_witness :
    ([[[(1 : ℚ), 3], [2, 4]]] : List (List (List ℚ))) ≠ [] ∧ 1 < 2 ∧
    Recorder.stop_recording [[[(1 : ℚ), 3], [2, 4]]] 2 5 =
      (([[[(1 : ℚ), 3], [2, 4]]] : List (List (List ℚ))).flatten.map
        fun row => [row.sum / (row.length : ℚ)], 5) :=
  ⟨by simp, by norm_num, (C8_theorem 2 5 [[[(1 : ℚ), 3], [2, 4]]]).2 (by simp) (by norm_num)⟩

/-- C9.  Whenever the classifier returns is_question = true, the returned
type is never null: it is always the type computed by the keyword scan,
which is one of "behavioral", "technical" or "general"; and when neither
keyword list matches the lowered text, the type defaults to "general". -/
theorem C9_theorem (text : String) :
    ((QuestionDetector.is_question text).is_question = true →
      (QuestionDetector.is_question text).qtype ≠ none ∧
      ((QuestionDetector.is_question text).qtype = some "behavioral" ∨
       (QuestionDetector.is_question text).qtype = some "technical" ∨
       (QuestionDetector.is_question text).qtype = some "general")) ∧
    (∀ t : List Char,
      (QuestionDetector.behavioral_keywords.any
        fun k => PyStr.isSubstr k.data (PyStr.lower t)) = false →
      (QuestionDetector.technical_keywords.any
        fun k => PyStr.isSubstr k.data (PyStr.lower t)) = false →
      QuestionDetector.determine_type t = "general") := by
  constructor
  · intro hq
    by_cases h : (PyStr.strip text.data).length < 5
    · simp [QuestionDetector.is_question, h] at hq
    · have hqt : (QuestionDetector.is_question text).qtype =
          some (QuestionDetector.determine_type (PyStr.strip text.data)) := by
        simp only [QuestionDetector.is_question, if_neg h] at hq ⊢
        rw [if_pos hq]
      rcases QuestionDetector.determine_type_cases (PyStr.strip text.data) with hd | hd | hd
      · exact ⟨by rw [hqt]; simp, Or.inl (by rw [hqt, hd])⟩
      · exact ⟨by rw [hqt]; simp, Or.inr (Or.inl (by rw [hqt, hd]))⟩
      · exact ⟨by rw [hqt]; simp, Or.inr (Or.inr (by rw [hqt, hd]))⟩
  · intro t h1 h2
    unfold QuestionDetector.determine_type
    simp [h1, h2]

/-- C9 witness: the theorem applied to the text "Run it fast now?", which
is classified as a question (it ends with a question mark) and whose type
is the default "general". -/
theorem C9_witness :
    (QuestionDetector.is_question "Run it fast now?").is_question = true ∧
    ((QuestionDetector.is_question "Run it fast now?").qtype ≠ none ∧
      ((QuestionDetector.is_question "Run it fast now?").qtype = some "behavioral" ∨
       (QuestionDetector.is_question "Run it fast now?").qtype = some "technical" ∨
       (QuestionDetector.is_question "Run it fast now?").qtype = some "general")) :=
  ⟨by decide, ( C9_theorem "Run it fast now?").1 (by decide)⟩

/-- C10.  Adding chunks to the audio buffer and then reading it with
clear = true returns the concatenation of the added chunks in order and
empties the buffer: an immediately following read returns an empty array,
and reading an empty buffer returns an empty array rather than failing. -/
theorem C10_theorem (chunks : List (List ℚ)) :
    (AudioProcessor.get_buffer (chunks.foldl AudioProcessor.add_to_buffer []) true).1 =
      chunks.flatten ∧
    (AudioProcessor.get_buffer (chunks.foldl AudioProcessor.add_to_buffer []) true).2 = [] ∧
    AudioProcessor.get_buffer
      ((AudioProcessor.get_buffer (chunks.foldl AudioProcessor.add_to_buffer []) true).2)
      true = ([], []) ∧
    AudioProcessor.get_buffer [] true = ([], []) := by
  have hfold : chunks.foldl AudioProcessor.add_to_buffer [] = chunks := by
    simpa using AudioProcessor.foldl_add_to_buffer chunks []
  rw [hfold]
  cases chunks with
  | nil => exact ⟨rfl, rfl, rfl, rfl⟩
  | cons c cs => exact ⟨rfl, rfl, rfl, rfl⟩
